import Mathlib

/-!
Shallow embedding of the transaction normalization, bucketing and
summarization core of `save2win-engine/app.py` (functions `_tofloat`,
`_parsetime`, `_normalize_tx`, `_bucket_for`, `_tx_to_json`, `_summarize`,
`apply_game_logic`), together with proofs settling the specification
claims about it.

Modelling conventions:
* Raw transaction data reaches the engine as decoded JSON, so raw values
  are modelled by the inductive `PyVal` of JSON-shaped Python values
  (`None`, `bool`, `int`, `float`, `str`, `list`, `dict`).
* Python floats are modelled as exact rationals (`ℚ`); `round` is modelled
  by `round2` below.
* Python exceptions are modelled with `Except String`; a returned
  `.error` names the Python exception class that escapes.
* `datetime` values are modelled as `Int` timestamps in microseconds on a
  monotone (fake-calendar) encoding: only the order of timestamps and the
  "now minus N minutes" arithmetic matter for the claims.
* Python runtime primitives (`str()`, `float(str)`, `datetime.fromisoformat`)
  are modelled by concrete total Lean functions (`pyStr`, `strToFloat?`,
  `isoParse`); both the embedded code and the formalized claims use the
  same models.
-/

/-- JSON-shaped Python values as they arrive from the upstream service. -/
inductive PyVal where
  | none
  | bool (b : Bool)
  | int (n : Int)
  | float (q : ℚ)
  | str (s : String)
  | list (l : List PyVal)
  | dict (d : List (String × PyVal))
deriving Repr

/-- Python truthiness (`bool(x)`). -/
def pyTruthy : PyVal → Bool
  | .none => false
  | .bool b => b
  | .int n => decide (n ≠ 0)
  | .float q => decide (q ≠ 0)
  | .str s => !s.isEmpty
  | .list l => !l.isEmpty
  | .dict d => !d.isEmpty

/-- `d.get(k)` on a dict: the stored value, or `None` when the key is absent. -/
def pyGet (d : List (String × PyVal)) (k : String) : PyVal :=
  (List.lookup k d).getD PyVal.none

/-- `d.get(k, default)` on a dict. -/
def pyGetD (d : List (String × PyVal)) (k : String) (dflt : PyVal) : PyVal :=
  (List.lookup k d).getD dflt

/-- Python `a or b`: `a` when truthy, else `b`. -/
def pyOr (a b : PyVal) : PyVal :=
  if pyTruthy a then a else b

/-- Model of Python `str()` on JSON-shaped values.  The container cases are
stand-ins for Python's repr; the embedded code and the claims use the same
function, and no claim depends on the exact container rendering. -/
def pyStr : PyVal → String
  | .none => "None"
  | .bool true => "True"
  | .bool false => "False"
  | .int n => toString n
  | .float q => toString q
  | .str s => s
  | .list _ => "[list]"
  | .dict _ => "[dict]"

/-- Python `x == s` against a string literal: only strings can compare equal. -/
def pyEqStr (v : PyVal) (s : String) : Bool :=
  match v with
  | .str t => t = s
  | _ => false

/-- `listStarts needle l`: `needle` is an initial segment of `l`. -/
def listStarts : List Char → List Char → Bool
  | [], _ => true
  | _ :: _, [] => false
  | a :: as, b :: bs => a == b && listStarts as bs

/-- `listHasSub needle l`: `needle` occurs contiguously inside `l`. -/
def listHasSub (needle : List Char) : List Char → Bool
  | [] => needle.isEmpty
  | b :: bs => listStarts needle (b :: bs) || listHasSub needle bs

/-- Python `needle in hay` on strings (substring containment). -/
def strContains (hay needle : String) : Bool :=
  listHasSub needle.toList hay.toList

/-- Replaces every occurrence of the character `pat` by `rep`. -/
def charReplace (pat : Char) (rep : List Char) : List Char → List Char
  | [] => []
  | c :: cs => if c = pat then rep ++ charReplace pat rep cs else c :: charReplace pat rep cs

/-- Python `s.replace(pat, rep)` for a one-character pattern (the only shape
the engine uses: `","`, `"$"`, `"Z"`). -/
def strReplace1 (s : String) (pat : Char) (rep : String) : String :=
  String.mk (charReplace pat rep.toList s.toList)

/-- Leading and trailing whitespace removed. -/
def listTrim (l : List Char) : List Char :=
  ((l.dropWhile Char.isWhitespace).reverse.dropWhile Char.isWhitespace).reverse

/-- Python `s.strip()`. -/
def strTrim (s : String) : String :=
  String.mk (listTrim s.toList)

/-- Python `s.lower()`. -/
def strLower (s : String) : String :=
  String.mk (s.toList.map Char.toLower)

/-- Python `s.capitalize()`: first character upper-cased, rest lower-cased. -/
def pyCapitalize (s : String) : String :=
  match s.toList with
  | [] => ""
  | c :: rest => String.mk (c.toUpper :: rest.map Char.toLower)

example : pyCapitalize "coffee" = "Coffee" := by decide
example : strContains "starbucks reserve" "starbucks" = true := by decide
example : pyOr (PyVal.str "") (PyVal.str "x") = PyVal.str "x" := rfl

/-! ## Amount parsing (`_tofloat`) -/

/-- Reads a run of decimal digits as a number; `none` on any non-digit. -/
def digitsToNat? (l : List Char) : Option Nat :=
  l.foldl
    (fun acc c =>
      match acc with
      | Option.none => Option.none
      | some n => if c.isDigit then some (n * 10 + (c.toNat - 48)) else Option.none)
    (some 0)

/-- Model of Python's `float(<str>)` on an already-trimmed string: optional
sign, then digits with at most one decimal point and at least one digit.
(Pythonic extras such as exponents, `inf`/`nan` and digit underscores are
outside the model; no claim depends on them.) -/
def strToFloat? (s : String) : Option ℚ :=
  let cs := s.toList
  let signed : ℚ × List Char :=
    match cs with
    | '+' :: rest => (1, rest)
    | '-' :: rest => (-1, rest)
    | _ => (1, cs)
  let sign := signed.1
  let body := signed.2
  if body.isEmpty then Option.none
  else
    match body.splitOn '.' with
    | [ds] =>
      if ds.isEmpty then Option.none
      else (digitsToNat? ds).map (fun n => sign * (n : ℚ))
    | [ds, fs] =>
      if ds.isEmpty && fs.isEmpty then Option.none
      else
        match digitsToNat? ds, digitsToNat? fs with
        | some n, some f => some (sign * ((n : ℚ) + (f : ℚ) / ((10 : ℚ) ^ fs.length)))
        | _, _ => Option.none
    | _ => Option.none

/-- Model of Python's `float()` builtin on JSON-shaped values: numbers and
booleans convert, strings are parsed (after `float`'s own whitespace strip),
everything else is a conversion failure (`TypeError`/`ValueError`). -/
def pyFloat : PyVal → Option ℚ
  | .bool b => some (if b then 1 else 0)
  | .int n => some (n : ℚ)
  | .float q => some q
  | .str s => strToFloat? (strTrim s)
  | _ => Option.none

/-- `_tofloat(x, default)`: `None` yields the default; strings are cleaned of
`,` and `$` and surrounding whitespace before conversion; any conversion
failure yields the default. -/
def _tofloat (x : PyVal) (dflt : ℚ) : ℚ :=
  match x with
  | PyVal.none => dflt
  | x =>
    let x' : PyVal :=
      match x with
      | .str s => .str (strTrim (strReplace1 (strReplace1 s ',' "") '$' ""))
      | v => v
    match pyFloat x' with
    | some q => q
    | Option.none => dflt

example : _tofloat (PyVal.str "$1,234.56") 0 = 1234.56 := by with_unfolding_all rfl
example : _tofloat (PyVal.str "abc") 7 = 7 := by with_unfolding_all rfl
example : _tofloat (PyVal.int (-42)) 0 = -42 := by with_unfolding_all rfl
example : _tofloat PyVal.none 3 = 3 := by with_unfolding_all rfl

/-! ## Time parsing (`_parsetime`) -/

/-- Microseconds per minute; `timedelta(minutes=1)` in the timestamp encoding. -/
def MICROS_PER_MIN : Int := 60000000

/-- Microseconds per day in the timestamp encoding. -/
def MICROS_PER_DAY : Int := 86400000000

/-- Two fixed decimal digits read as a number; `none` otherwise. -/
def twoDigits? : Char → Char → Option Nat
  | a, b => if a.isDigit && b.isDigit then some ((a.toNat - 48) * 10 + (b.toNat - 48)) else Option.none

/-- Fractional-second digits (1 to 6) to microseconds. -/
def fracMicros? (l : List Char) : Option Nat :=
  if l.isEmpty || l.length > 6 then Option.none
  else (digitsToNat? l).map (fun n => n * 10 ^ (6 - l.length))

/-- Timestamp, in microseconds, of a validated calendar-clock reading on a
monotone fake-calendar encoding (only the order of timestamps matters). -/
def mkStamp (y mo d h mi s micro : Nat) (offMicro : Int) : Int :=
  ((((y * 372 + (mo - 1) * 31 + (d - 1)) * 24 + h) * 60 + mi) * 60 + s : Int) * 1000000
    + (micro : Int) - offMicro

/-- Clock part `HH:MM[:SS[.ffffff]]` with optional `±HH:MM` offset, given the
already-parsed date; models the time-of-day handling of `fromisoformat`. -/
def isoClock (y mo d : Nat) : List Char → Option Int
  | [] => some (mkStamp y mo d 0 0 0 0 0)
  | h1 :: h2 :: ':' :: m1 :: m2 :: rest =>
    match twoDigits? h1 h2, twoDigits? m1 m2 with
    | some h, some mi =>
      if h ≤ 23 && mi ≤ 59 then
        match rest with
        | [] => some (mkStamp y mo d h mi 0 0 0)
        | ':' :: s1 :: s2 :: rest2 =>
          match twoDigits? s1 s2 with
          | some s =>
            if s ≤ 59 then
              match rest2 with
              | [] => some (mkStamp y mo d h mi s 0 0)
              | '.' :: rest3 =>
                let fracPart := rest3.takeWhile Char.isDigit
                let offPart := rest3.dropWhile Char.isDigit
                match fracMicros? fracPart with
                | some micro =>
                  match offPart with
                  | [] => some (mkStamp y mo d h mi s micro 0)
                  | sgn :: o1 :: o2 :: ':' :: o3 :: o4 :: [] =>
                    match twoDigits? o1 o2, twoDigits? o3 o4 with
                    | some oh, some om =>
                      if (sgn = '+' || sgn = '-') && oh ≤ 23 && om ≤ 59 then
                        let off : Int := ((oh * 60 + om : Nat) : Int) * MICROS_PER_MIN
                        some (mkStamp y mo d h mi s micro (if sgn = '+' then off else -off))
                      else Option.none
                    | _, _ => Option.none
                  | _ => Option.none
                | Option.none => Option.none
              | sgn :: o1 :: o2 :: ':' :: o3 :: o4 :: [] =>
                match twoDigits? o1 o2, twoDigits? o3 o4 with
                | some oh, some om =>
                  if (sgn = '+' || sgn = '-') && oh ≤ 23 && om ≤ 59 then
                    let off : Int := ((oh * 60 + om : Nat) : Int) * MICROS_PER_MIN
                    some (mkStamp y mo d h mi s 0 (if sgn = '+' then off else -off))
                  else Option.none
                | _, _ => Option.none
              | _ => Option.none
            else Option.none
          | Option.none => Option.none
        | sgn :: o1 :: o2 :: ':' :: o3 :: o4 :: [] =>
          match twoDigits? o1 o2, twoDigits? o3 o4 with
          | some oh, some om =>
            if (sgn = '+' || sgn = '-') && oh ≤ 23 && om ≤ 59 then
              let off : Int := ((oh * 60 + om : Nat) : Int) * MICROS_PER_MIN
              some (mkStamp y mo d h mi 0 0 (if sgn = '+' then off else -off))
            else Option.none
          | _, _ => Option.none
        | _ => Option.none
      else Option.none
    | _, _ => Option.none
  | _ => Option.none

/-- Model of `datetime.fromisoformat` (after the engine's `Z → +00:00`
substitution) on the subset `YYYY-MM-DD`, optionally followed by a `T` or
space and `HH:MM[:SS[.f…]]`, optionally followed by `±HH:MM`, normalized to
UTC microseconds.  The engine's three `strptime`
fallback formats accept only strings this grammar already accepts after the
`Z` substitution, so they are subsumed. -/
def isoParse (s : String) : Option Int :=
  match s.toList with
  | y1 :: y2 :: y3 :: y4 :: '-' :: m1 :: m2 :: '-' :: d1 :: d2 :: rest =>
    match digitsToNat? [y1, y2, y3, y4], twoDigits? m1 m2, twoDigits? d1 d2 with
    | some y, some mo, some d =>
      if 1 ≤ mo && mo ≤ 12 && 1 ≤ d && d ≤ 31 then
        match rest with
        | [] => some (mkStamp y mo d 0 0 0 0 0)
        | 'T' :: clock => isoClock y mo d clock
        | ' ' :: clock => isoClock y mo d clock
        | _ => Option.none
      else Option.none
    | _, _, _ => Option.none
  | _ => Option.none

/-- `_parsetime(s)`: falsy input yields absence; a string is parsed after the
`Z → +00:00` substitution (unparseable strings yield absence); a truthy
non-string raises `AttributeError` at `s.replace`, which is caught by none of
the `except (ValueError, TypeError)` handlers. -/
def _parsetime (s : PyVal) : Except String (Option Int) :=
  if pyTruthy s = false then .ok Option.none
  else
    match s with
    | .str t => .ok (isoParse (strReplace1 t 'Z' "+00:00"))
    | _ => .error "AttributeError"

/-- Lexicographic order on character lists (used where Python compares
strings, e.g. `sorted(buckets.items())`). -/
def charListLe : List Char → List Char → Bool
  | [], _ => true
  | _ :: _, [] => false
  | a :: as, b :: bs => if a < b then true else if b < a then false else charListLe as bs

/-- Python `a <= b` on strings. -/
def strLeB (a b : String) : Bool :=
  charListLe a.toList b.toList

example : _parsetime (PyVal.str "2024-01-02") = .ok (some (mkStamp 2024 1 2 0 0 0 0 0)) := rfl
example : _parsetime (PyVal.str "2024-01-02T03:04:05Z")
    = .ok (some (mkStamp 2024 1 2 3 4 5 0 0)) := rfl
example : _parsetime (PyVal.str "garbage") = .ok Option.none := rfl
example : _parsetime (PyVal.int 1) = .error "AttributeError" := rfl
example : _parsetime PyVal.none = .ok Option.none := rfl

/-! ## Transaction normalization (`_normalize_tx`) -/

/-- The canonical transaction record produced by `_normalize_tx`. -/
structure NormalizedTx where
  date : Option Int
  type : String
  account : Option String
  label : String
  amount : ℚ
  raw : List (String × PyVal)
deriving Repr

/-- `raw.get("date") or raw.get("time") or raw.get("timestamp")`. -/
def _date_field (raw : List (String × PyVal)) : PyVal :=
  pyOr (pyGet raw "date") (pyOr (pyGet raw "time") (pyGet raw "timestamp"))

/-- `_normalize_tx(raw)`: field extraction by key priority, amount parsing,
type resolution, sign fix-up, and date parsing.  The only failure path is
the uncaught `AttributeError` escaping `_parsetime` (see `_parsetime`). -/
def _normalize_tx (raw : List (String × PyVal)) : Except String NormalizedTx :=
  let date := _date_field raw
  let amt := pyGet raw "amount"
  let typ := pyOr (pyGet raw "type") (pyGet raw "category")
  let lab := pyOr (pyGet raw "label")
    (pyOr (pyGet raw "description") (pyOr (pyGet raw "merchant") (PyVal.str "")))
  let acct := pyOr (pyGet raw "account") (pyOr (pyGet raw "toAccountId") (pyGet raw "fromAccountId"))
  let amount_float := _tofloat amt 0
  let normalized_type :=
    if pyTruthy typ then
      let t_lower := strLower (pyStr typ)
      if strContains t_lower "credit" || strContains t_lower "income" || decide (0 < amount_float)
      then "Credit" else "Debit"
    else if 0 < amount_float then "Credit" else "Debit"
  let amount1 := if normalized_type = "Credit" ∧ amount_float < 0 then |amount_float| else amount_float
  let amount2 := if normalized_type = "Debit" ∧ 0 < amount1 then -amount1 else amount1
  match _parsetime date with
  | .error e => .error e
  | .ok d =>
    .ok { date := d
          type := normalized_type
          account := match acct with | PyVal.none => Option.none | v => some (pyStr v)
          label := pyStr lab
          amount := amount2
          raw := raw }

example : _normalize_tx [("date", PyVal.int 1)] = .error "AttributeError" := rfl
example :
    (_normalize_tx [("type", PyVal.str "credit"), ("amount", PyVal.str "-5")]).map
      (fun t => (t.type, t.amount, t.date))
    = .ok ("Credit", 5, Option.none) := by with_unfolding_all rfl

/-! ## Bucket classification (`_bucket_for`) -/

/-- The keyword list of the `"coffee"` category. -/
def coffeeWords : List String := ["coffee", "cafe", "starbucks", "peet", "blue bottle", "costa", "nero"]

/-- The keyword list of the `"groceries"` category. -/
def groceriesWords : List String :=
  ["grocery", "grocer", "market", "safeway", "tesco", "asda", "aldi", "lidl", "whole foods"]

/-- The keyword list of the `"transport"` category. -/
def transportWords : List String :=
  ["uber", "lyft", "taxi", "transport", "bus", "train", "tube", "metro"]

/-- The keyword list of the `"bills"` category. -/
def billsWords : List String :=
  ["utility", "utilities", "electric", "gas", "water", "internet", "phone", "bill"]

/-- The keyword list of the `"entertainment"` category. -/
def entertainmentWords : List String :=
  ["netflix", "spotify", "cinema", "theatre", "concert", "amc"]

/-- The fixed, ordered category → keyword table. -/
def KEYWORDS : List (String × List String) :=
  [("coffee", coffeeWords),
   ("groceries", groceriesWords),
   ("transport", transportWords),
   ("bills", billsWords),
   ("entertainment", entertainmentWords)]

/-- `_bucket_for(tx)`: Credit transactions bucket as `"Income"`; otherwise the
first table category one of whose keywords occurs in the lower-cased label
wins (capitalized); otherwise `"Other"`.  (In the source the label is read as
`tx.get("label") or ""`, which is the identity on the always-present string
label of a normalized transaction.) -/
def _bucket_for (tx : NormalizedTx) : String :=
  let label := strLower tx.label
  if tx.type = "Credit" then "Income"
  else
    match KEYWORDS.find? (fun bw => bw.2.any (fun w => strContains label w)) with
    | some bw => pyCapitalize bw.1
    | Option.none => "Other"

example :
    _bucket_for { date := Option.none, type := "Debit", account := Option.none,
                  label := "STARBUCKS #123", amount := -4, raw := [] } = "Coffee" := by decide
example :
    _bucket_for { date := Option.none, type := "Credit", account := Option.none,
                  label := "starbucks", amount := 4, raw := [] } = "Income" := by decide
example :
    _bucket_for { date := Option.none, type := "Debit", account := Option.none,
                  label := "mystery", amount := -4, raw := [] } = "Other" := by decide

/-! ## Serialization (`_tx_to_json`) -/

/-- Python `round(x, 2)`.  Mathlib's `round` (half away from zero at `.5`)
stands in for Python's banker's rounding; no claim depends on exact-half
tie behaviour. -/
def round2 (q : ℚ) : ℚ :=
  ((round (q * 100) : ℤ) : ℚ) / 100

/-- The serialized transaction of the summary output.  The `date` keeps the
timestamp that the source renders as an ISO-8601 `Z`-suffixed string. -/
structure TxJson where
  date : Option Int
  type : String
  account : Option String
  label : String
  amount : ℚ
deriving Repr, DecidableEq

/-- `_tx_to_json(t)`. -/
def _tx_to_json (t : NormalizedTx) : TxJson :=
  { date := t.date
    type := t.type
    account := t.account
    label := t.label
    amount := round2 t.amount }

/-! ## Summarization (`_summarize`) -/

/-- The resolved sort key of a transaction (after the undated fix-up every
`date` is `some`, so the default is never consulted post fix-up). -/
def dateKey (t : NormalizedTx) : Int := t.date.getD 0

/-- The relation of `tx.sort(key=lambda x: x["date"], reverse=True)`:
date descending. -/
def txGE (a b : NormalizedTx) : Prop := dateKey b ≤ dateKey a

instance : DecidableRel txGE := fun _ _ => Int.decLe _ _

instance : IsTotal NormalizedTx txGE := ⟨fun a b => le_total (dateKey b) (dateKey a)⟩

instance : IsTrans NormalizedTx txGE := ⟨fun _ _ _ h1 h2 => le_trans h2 h1⟩

/-- The mapping-shaped entries of the raw input, in input order
(the `isinstance(t, dict)` filter of the normalization pass). -/
def asDicts (transactions : List PyVal) : List (List (String × PyVal)) :=
  transactions.filterMap fun t =>
    match t with
    | .dict d => some d
    | _ => Option.none

/-- Sequential fallible map: the comprehension `[f(t) for t in l]` where the
first escaping exception aborts the whole batch. -/
def mapExcept {α β : Type} (f : α → Except String β) : List α → Except String (List β)
  | [] => .ok []
  | a :: l =>
    match f a with
    | .error e => .error e
    | .ok b =>
      match mapExcept f l with
      | .error e => .error e
      | .ok bs => .ok (b :: bs)

/-- `[_normalize_tx(t) for t in transactions if isinstance(t, dict)]`: the
first exception escaping `_normalize_tx` aborts the whole batch. -/
def normalizeBatch (transactions : List PyVal) : Except String (List NormalizedTx) :=
  mapExcept _normalize_tx (asDicts transactions)

/-- The undated-record fix-up: the record at 0-based position `i` of the
normalized sequence, if undated, gets the placeholder `now - i` minutes. -/
def fillDates (now : Int) (tx : List NormalizedTx) : List NormalizedTx :=
  tx.enum.map fun p =>
    if p.2.date.isNone then { p.2 with date := some (now - (p.1 : Int) * MICROS_PER_MIN) }
    else p.2

/-- Python's stable descending sort by date (`list.sort` is stable;
insertion sort with the `txGE` preorder is the same stable sort). -/
def sortTx (tx : List NormalizedTx) : List NormalizedTx :=
  List.insertionSort txGE tx

/-- One `defaultdict` accumulation step: add `a` to bucket `k`'s total and
bump its count, keeping first-insertion order. -/
def addToBucket : List (String × ℚ × Nat) → String → ℚ → List (String × ℚ × Nat)
  | [], k, a => [(k, a, 1)]
  | (k', t, c) :: rest, k, a =>
    if k' = k then (k', t + a, c + 1) :: rest else (k', t, c) :: addToBucket rest k a

/-- The bucket accumulation loop over the sorted transactions. -/
def rawBuckets (tx : List NormalizedTx) : List (String × ℚ × Nat) :=
  tx.foldl (fun bs t => addToBucket bs (_bucket_for t) t.amount) []

/-- Key order of `sorted(buckets.items())` (bucket keys are unique, so the
values are never compared). -/
def bucketLe (x y : String × ℚ × Nat) : Prop := strLeB x.1 y.1 = true

instance : DecidableRel bucketLe := fun _ _ => instDecidableEqBool _ _

/-- `sorted(buckets.items())`. -/
def sortBuckets (bs : List (String × ℚ × Nat)) : List (String × ℚ × Nat) :=
  List.insertionSort bucketLe bs

/-- Python `min(items, key=lambda t: t["amount"], default=None)`: the first
minimal element, or absence on an empty list. -/
def minByAmount : List NormalizedTx → Option NormalizedTx
  | [] => Option.none
  | a :: l => some (l.foldl (fun acc t => if t.amount < acc.amount then t else acc) a)

/-- A rolling-window stats record. -/
structure WindowStats where
  spend : ℚ
  income : ℚ
  net : ℚ
deriving Repr, DecidableEq

/-- `_sum_amt(items)`. -/
def _sum_amt (items : List NormalizedTx) : ℚ :=
  round2 (items.map (fun t => t.amount)).sum

/-- `_window(days)` anchored at `now`. -/
def _window (now : Int) (tx : List NormalizedTx) (days : Int) : WindowStats :=
  let cutoff := now - days * MICROS_PER_DAY
  let items := tx.filter fun t => decide (cutoff ≤ dateKey t)
  let spend := _sum_amt (items.filter fun t => decide (t.amount < 0))
  let income := _sum_amt (items.filter fun t => decide (0 < t.amount))
  { spend := spend, income := income, net := round2 (income + spend) }

/-- The summary contract returned by `_summarize`. -/
structure Summary where
  recent : List TxJson
  buckets : List (String × ℚ × Nat)
  largest_debit : Option TxJson
  last_income : Option TxJson
  last_7d : WindowStats
  last_30d : WindowStats
  avg_daily_spend_30d : ℚ
  count : Nat
deriving Repr

/-- `_summarize(transactions)` with the `datetime.now` reading passed in as
`now`. -/
def _summarize (transactions : List PyVal) (now : Int) : Except String Summary :=
  match normalizeBatch transactions with
  | .error e => .error e
  | .ok tx0 =>
    let tx := sortTx (fillDates now tx0)
    let buckets := rawBuckets tx
    let debits := tx.filter fun t => decide (t.amount < 0)
    let credits := tx.filter fun t => decide (0 < t.amount)
    let largest_debit := minByAmount debits
    let last_income := credits.head?
    let stats_30d := _window now tx 30
    .ok { recent := tx.map _tx_to_json
          buckets := (sortBuckets buckets).map fun b => (b.1, round2 b.2.1, b.2.2)
          largest_debit := largest_debit.map _tx_to_json
          last_income := last_income.map _tx_to_json
          last_7d := _window now tx 7
          last_30d := stats_30d
          avg_daily_spend_30d := if stats_30d.spend ≠ 0 then round2 (|stats_30d.spend| / 30) else 0
          count := tx.length }

example :
    (_summarize [] 0).map (fun s => (s.count, s.recent, s.buckets, s.last_income))
    = .ok (0, [], [], Option.none) := by with_unfolding_all rfl

/-! ## Game rule engine (`apply_game_logic`) -/

/-- Short-circuiting `any(generator)` where evaluating the body is fallible:
stops at the first `True`, and the first exception escapes. -/
def exceptAny {α : Type} (f : α → Except String Bool) : List α → Except String Bool
  | [] => .ok false
  | a :: l =>
    match f a with
    | .error e => .error e
    | .ok true => .ok true
    | .ok false => exceptAny f l

/-- `"coffee" in (t.get("merchant") or t.get("label") or "").lower()`:
raises `AttributeError` when the resolved value is truthy but not a string. -/
def coffeeCheck (t : List (String × PyVal)) : Except String Bool :=
  match pyOr (pyGet t "merchant") (pyOr (pyGet t "label") (PyVal.str "")) with
  | .str s => .ok (strContains (strLower s) "coffee")
  | _ => .error "AttributeError"

/-- Python `x > 0` on a JSON value: numbers and booleans compare numerically;
`None`, strings and containers raise `TypeError`. -/
def pyGtZero : PyVal → Except String Bool
  | .int n => .ok (decide (0 < n))
  | .float q => .ok (decide (0 < q))
  | .bool b => .ok b
  | _ => .error "TypeError"

/-- `(t.get("category") == "Income") or (t.get("type") == "Credit") or
(t.get("amount", 0) > 0)`, with Python's short-circuit order: the fallible
amount comparison is only reached when both string tests are false. -/
def moneyCheck (t : List (String × PyVal)) : Except String Bool :=
  if pyEqStr (pyGet t "category") "Income" then .ok true
  else if pyEqStr (pyGet t "type") "Credit" then .ok true
  else pyGtZero (pyGetD t "amount" (PyVal.int 0))

/-- The game-state object of `apply_game_logic`. -/
structure GameState where
  xp : Int
  level : Int
  quest : PyVal
  tip : PyVal
  badges : List (String × String)
deriving Repr

/-- `apply_game_logic(transactions, ai_content)`.  The sign-claim quantifies
over mapping-shaped transaction records, hence the dict-typed input list. -/
def apply_game_logic (transactions : List (List (String × PyVal)))
    (ai_content : List (String × PyVal)) : Except String GameState :=
  match exceptAny coffeeCheck transactions with
  | .error e => .error e
  | .ok coffee =>
    match exceptAny moneyCheck transactions with
    | .error e => .error e
    | .ok money =>
      let xp0 : Int := 100
      let badges0 : List (String × String) := []
      let badges1 := if coffee then badges0 ++ [("coffee_crusader", "Coffee Crusader")] else badges0
      let xp1 := if coffee then xp0 + 250 else xp0
      let badges2 := if money then badges1 ++ [("money_maker", "Big Deposit!")] else badges1
      let xp2 := if money then xp1 + 500 else xp1
      .ok { xp := xp2
            level := 1
            quest := pyGetD ai_content "quest" (PyVal.str "No quest available.")
            tip := pyGetD ai_content "tip" (PyVal.str "Save a little every day!")
            badges := badges2 }

example :
    (apply_game_logic [[("merchant", PyVal.str "Blue Bottle Coffee"), ("amount", PyVal.int (-6))]]
      []).map (fun g => (g.xp, g.badges))
    = .ok (350, [("coffee_crusader", "Coffee Crusader")]) := rfl
example :
    (apply_game_logic [[("category", PyVal.str "Income"), ("amount", PyVal.int 500)]] []).map
      (fun g => (g.xp, g.badges))
    = .ok (600, [("money_maker", "Big Deposit!")]) := rfl
example :
    (apply_game_logic [[("amount", PyVal.none)]] []).map (fun g => g.xp)
    = .error "TypeError" := rfl
example :
    (apply_game_logic [[("merchant", PyVal.int 5)]] []).map (fun g => g.xp)
    = .error "AttributeError" := rfl

/-! ## Spec-side definitions and helpers used by the claims -/

/-- `Except` success as a Boolean. -/
def isOkB {α : Type} : Except String α → Bool
  | .ok _ => true
  | .error _ => false

/-- The raw mappings on which `_parsetime` cannot raise: the resolved date
value is a string or is not truthy. -/
def dateFieldSafe (raw : List (String × PyVal)) : Bool :=
  match _date_field raw with
  | PyVal.str _ => true
  | v => !pyTruthy v

/-- The sign invariant of the data model (§3 of the spec). -/
def signInvariant (t : NormalizedTx) : Prop :=
  (t.type = "Credit" → 0 ≤ t.amount) ∧ (t.type = "Debit" → t.amount ≤ 0)

/-- The classifier exactly as the spec words it: Credit takes precedence;
otherwise the first of coffee, groceries, transport, bills, entertainment
(in declaration order) with a keyword occurring in the lower-cased label,
capitalized; otherwise `"Other"`. -/
def spec_bucket (tx : NormalizedTx) : String :=
  let label := strLower tx.label
  if tx.type = "Credit" then "Income"
  else if coffeeWords.any (fun w => strContains label w) then "Coffee"
  else if groceriesWords.any (fun w => strContains label w) then "Groceries"
  else if transportWords.any (fun w => strContains label w) then "Transport"
  else if billsWords.any (fun w => strContains label w) then "Bills"
  else if entertainmentWords.any (fun w => strContains label w) then "Entertainment"
  else "Other"

/-- The type-resolution rule exactly as the spec words it: with a truthy
hint, Credit iff the lower-cased hint contains "credit" or "income" or the
parsed amount is strictly positive; with no truthy hint, Credit iff the
parsed amount is strictly positive. -/
def spec_type (raw : List (String × PyVal)) : String :=
  let typ := pyOr (pyGet raw "type") (pyGet raw "category")
  let amount := _tofloat (pyGet raw "amount") 0
  if pyTruthy typ then
    if strContains (strLower (pyStr typ)) "credit" = true
        ∨ strContains (strLower (pyStr typ)) "income" = true ∨ 0 < amount
    then "Credit" else "Debit"
  else if 0 < amount then "Credit" else "Debit"

/-- Numbers in the sense of Python's `>` against `0` (ints, floats, bools). -/
def isNumericB : PyVal → Bool
  | .int _ => true
  | .float _ => true
  | .bool _ => true
  | _ => false

/-- Raw mappings on which `apply_game_logic`'s field reads cannot raise:
the resolved merchant-or-label value is a string, and the money test is
decided before the amount comparison or the amount value is numeric. -/
def gameSafeRec (t : List (String × PyVal)) : Bool :=
  (match pyOr (pyGet t "merchant") (pyOr (pyGet t "label") (PyVal.str "")) with
   | PyVal.str _ => true
   | _ => false)
  && (pyEqStr (pyGet t "category") "Income" || pyEqStr (pyGet t "type") "Credit"
      || isNumericB (pyGetD t "amount" (PyVal.int 0)))

/-! ## Helper lemmas -/

theorem cap_coffee : pyCapitalize "coffee" = "Coffee" := by decide

theorem cap_groceries : pyCapitalize "groceries" = "Groceries" := by decide

theorem cap_transport : pyCapitalize "transport" = "Transport" := by decide

theorem cap_bills : pyCapitalize "bills" = "Bills" := by decide

theorem cap_entertainment : pyCapitalize "entertainment" = "Entertainment" := by decide

/-! ## The claims -/

/-- C4: `_tofloat` always returns a value and never raises: `None` yields the
caller-supplied default; a string is converted after removal of `,` and `$`
and surrounding whitespace (`"$1,234.56"` yields `1234.56`); any failed
conversion (`"abc"`, containers) yields the default; numeric `-42` yields
`-42.0`. -/
theorem C4_tofloat_robust :
    (∀ d : ℚ, _tofloat PyVal.none d = d)
    ∧ (∀ d : ℚ, _tofloat (PyVal.str "$1,234.56") d = 1234.56)
    ∧ (∀ d : ℚ, _tofloat (PyVal.str "abc") d = d)
    ∧ (∀ d : ℚ, _tofloat (PyVal.int (-42)) d = -42)
    ∧ (∀ (d : ℚ) (l : List PyVal), _tofloat (PyVal.list l) d = d)
    ∧ (∀ (d : ℚ) (m : List (String × PyVal)), _tofloat (PyVal.dict m) d = d)
    ∧ (∀ (d : ℚ) (s : String),
        _tofloat (PyVal.str s) d
          = (pyFloat (PyVal.str (strTrim (strReplace1 (strReplace1 s ',' "") '$' "")))).getD d) :=
  ⟨fun _ => rfl,
   fun d => by with_unfolding_all rfl,
   fun d => by with_unfolding_all rfl,
   fun d => by with_unfolding_all rfl,
   fun _ _ => rfl,
   fun _ _ => rfl,
   fun d s => by
    show (match pyFloat (PyVal.str (strTrim (strReplace1 (strReplace1 s ',' "") '$' ""))) with
          | some q => q
          | Option.none => d) = _
    cases pyFloat (PyVal.str (strTrim (strReplace1 (strReplace1 s ',' "") '$' ""))) <;> rfl⟩

/-- C5: `_bucket_for` is a pure function of (type, label) that agrees with
the spec's rule `spec_bucket`: Credit is always `"Income"` (keyword matches
notwithstanding), otherwise the first category of the table in declaration
order with a keyword occurring in the lower-cased label, capitalized,
otherwise `"Other"`. -/
theorem C5_bucket_for_spec (tx : NormalizedTx) : _bucket_for tx = spec_bucket tx := by
  unfold _bucket_for spec_bucket KEYWORDS
  by_cases hc : tx.type = "Credit"
  · simp [hc]
  · simp only [if_neg hc]
    cases h1 : coffeeWords.any (fun w => strContains (strLower tx.label) w) <;>
      cases h2 : groceriesWords.any (fun w => strContains (strLower tx.label) w) <;>
        cases h3 : transportWords.any (fun w => strContains (strLower tx.label) w) <;>
          cases h4 : billsWords.any (fun w => strContains (strLower tx.label) w) <;>
            cases h5 : entertainmentWords.any (fun w => strContains (strLower tx.label) w) <;>
              simp [List.find?, h1, h2, h3, h4, h5, cap_coffee, cap_groceries, cap_transport,
                cap_bills, cap_entertainment]

theorem credit_ne_debit : ("Credit" : String) ≠ "Debit" := by decide

theorem parsetime_safe (v : PyVal)
    (h : (match v with | PyVal.str _ => true | w => !pyTruthy w) = true) :
    ∃ o, _parsetime v = .ok o := by
  by_cases ht : pyTruthy v = true
  · cases v with
    | str s => exact ⟨isoParse (strReplace1 s 'Z' "+00:00"), by simp [_parsetime, ht]⟩
    | none => simp [pyTruthy] at ht
    | bool b => simp [ht] at h
    | int n => simp [ht] at h
    | float q => simp [ht] at h
    | list l => simp [ht] at h
    | dict d => simp [ht] at h
  · have hf : pyTruthy v = false := by revert ht; cases pyTruthy v <;> simp
    exact ⟨Option.none, by simp [_parsetime, hf]⟩

/-- C1 (counterexample): "never raises" fails on the mapping `{"date": 1}`:
`_parsetime` evaluates `(1).replace(...)` and the resulting `AttributeError`
is caught by none of the `except (ValueError, TypeError)` handlers, so it
escapes `_normalize_tx`. -/
theorem C1_counterexample :
    _normalize_tx [("date", PyVal.int 1)] = .error "AttributeError" := rfl

/-- C1 (amended): `_normalize_tx` returns a NormalizedTransaction and never
raises for every raw mapping whose resolved date value (`date` or `time` or
`timestamp`, first truthy) is a string or is not truthy; malformed fields
degrade to defaults.  A truthy non-string date value instead raises
`AttributeError` (see the counterexample). -/
theorem C1_normalize_total (raw : List (String × PyVal))
    (h : dateFieldSafe raw = true) :
    ∃ t : NormalizedTx, _normalize_tx raw = .ok t := by
  unfold dateFieldSafe at h
  obtain ⟨o, ho⟩ := parsetime_safe _ h
  cases hv : _normalize_tx raw with
  | ok t => exact ⟨t, rfl⟩
  | error e =>
    exfalso
    simp only [_normalize_tx, ho] at hv
    exact Except.noConfusion hv

theorem C1_witness :
    ∃ t : NormalizedTx,
      _normalize_tx [("date", PyVal.str "2024-03-05"), ("amount", PyVal.str "12")] = .ok t :=
  C1_normalize_total _ rfl

/-- C2: every successfully normalized transaction satisfies the sign
invariant — Credit implies a non-negative amount, Debit a non-positive one —
and a zero parsed amount is left unchanged by the sign fix-up. -/
theorem C2_sign_invariant (raw : List (String × PyVal)) (t : NormalizedTx)
    (h : _normalize_tx raw = .ok t) :
    signInvariant t ∧ (_tofloat (pyGet raw "amount") 0 = 0 → t.amount = 0) := by
  cases hp : _parsetime (_date_field raw) with
  | error e =>
    simp only [_normalize_tx, hp] at h
    exact Except.noConfusion h
  | ok d =>
    simp only [_normalize_tx, hp, Except.ok.injEq] at h
    subst h
    unfold signInvariant
    dsimp only
    set A := _tofloat (pyGet raw "amount") 0 with hA
    set nt :=
      (if pyTruthy (pyOr (pyGet raw "type") (pyGet raw "category")) = true then
        if (strContains (strLower (pyStr (pyOr (pyGet raw "type") (pyGet raw "category")))) "credit" ||
            strContains (strLower (pyStr (pyOr (pyGet raw "type") (pyGet raw "category")))) "income" ||
            decide (0 < A)) = true then "Credit" else "Debit"
      else if 0 < A then "Credit" else "Debit") with hnt0
    refine ⟨⟨?_, ?_⟩, ?_⟩
    · intro hc
      rw [hc]
      rw [if_neg (fun hh => absurd hh.1 (by decide) :
        ¬(("Credit" : String) = "Debit" ∧ 0 < (if ("Credit" : String) = "Credit" ∧ A < 0 then |A| else A)))]
      by_cases hA0 : A < 0
      · rw [if_pos ⟨rfl, hA0⟩]
        exact abs_nonneg _
      · rw [if_neg (fun hh => hA0 hh.2)]
        exact not_lt.mp hA0
    · intro hd
      rw [hd]
      rw [if_neg (fun hh => absurd hh.1 (by decide) :
        ¬(("Debit" : String) = "Credit" ∧ A < 0))]
      by_cases h0 : 0 < A
      · rw [if_pos ⟨rfl, h0⟩]
        linarith
      · rw [if_neg (fun hh => h0 hh.2)]
        exact not_lt.mp h0
    · intro h0
      rw [h0]
      rw [if_neg (fun hh => absurd hh.2 (lt_irrefl 0) : ¬(nt = "Credit" ∧ (0:ℚ) < 0))]
      rw [if_neg (fun hh => absurd hh.2 (lt_irrefl 0) : ¬(nt = "Debit" ∧ (0:ℚ) < 0))]

theorem C2_witness :
    signInvariant
        { date := Option.none, type := "Credit", account := Option.none, label := "",
          amount := 5, raw := [("type", PyVal.str "credit"), ("amount", PyVal.str "-5")] }
      ∧ (_tofloat (pyGet [("type", PyVal.str "credit"), ("amount", PyVal.str "-5")] "amount") 0 = 0 →
        NormalizedTx.amount
          { date := Option.none, type := "Credit", account := Option.none, label := "",
            amount := 5, raw := [("type", PyVal.str "credit"), ("amount", PyVal.str "-5")] } = 0) :=
  C2_sign_invariant _ _ (by with_unfolding_all rfl)

/-- C3: the type field of every successfully normalized transaction follows
exactly the spec's decision rule `spec_type`: with a truthy hint, Credit iff
the lower-cased hint contains "credit" or "income" or the parsed amount is
strictly positive, else Debit; with no truthy hint, Credit iff the parsed
amount is strictly positive, else Debit. -/
theorem C3_type_resolution (raw : List (String × PyVal)) (t : NormalizedTx)
    (h : _normalize_tx raw = .ok t) : t.type = spec_type raw := by
  cases hp : _parsetime (_date_field raw) with
  | error e =>
    simp only [_normalize_tx, hp] at h
    exact Except.noConfusion h
  | ok d =>
    simp only [_normalize_tx, hp, Except.ok.injEq] at h
    subst h
    dsimp only
    unfold spec_type
    simp only [Bool.or_eq_true, decide_eq_true_eq, or_assoc]

theorem C3_witness :
    NormalizedTx.type
        { date := Option.none, type := "Credit", account := Option.none, label := "",
          amount := 0, raw := [("category", PyVal.str "Income")] }
      = spec_type [("category", PyVal.str "Income")] :=
  C3_type_resolution _ _ (by with_unfolding_all rfl)

theorem exceptAny_ok {α : Type} (f : α → Except String Bool) (l : List α)
    (h : ∀ a ∈ l, ∃ b, f a = .ok b) : ∃ b, exceptAny f l = .ok b := by
  induction l with
  | nil => exact ⟨false, rfl⟩
  | cons a l ih =>
    obtain ⟨b, hb⟩ := h a (List.mem_cons_self a l)
    obtain ⟨c, hc⟩ := ih (fun x hx => h x (List.mem_cons_of_mem _ hx))
    cases b
    · exact ⟨c, by simp [exceptAny, hb, hc]⟩
    · exact ⟨true, by simp [exceptAny, hb]⟩

theorem pyGtZero_ok (v : PyVal) (h : isNumericB v = true) : ∃ b, pyGtZero v = .ok b := by
  cases v with
  | int n => exact ⟨_, rfl⟩
  | float q => exact ⟨_, rfl⟩
  | bool b => exact ⟨_, rfl⟩
  | none => exact Bool.noConfusion h
  | str s => exact Bool.noConfusion h
  | list l => exact Bool.noConfusion h
  | dict d => exact Bool.noConfusion h

theorem coffeeCheck_ok (t : List (String × PyVal)) (h : gameSafeRec t = true) :
    ∃ b, coffeeCheck t = .ok b := by
  unfold gameSafeRec at h
  rw [Bool.and_eq_true] at h
  unfold coffeeCheck
  cases hm : pyOr (pyGet t "merchant") (pyOr (pyGet t "label") (PyVal.str "")) with
  | str s => exact ⟨_, rfl⟩
  | none => rw [hm] at h; exact Bool.noConfusion h.1
  | bool b => rw [hm] at h; exact Bool.noConfusion h.1
  | int n => rw [hm] at h; exact Bool.noConfusion h.1
  | float q => rw [hm] at h; exact Bool.noConfusion h.1
  | list l => rw [hm] at h; exact Bool.noConfusion h.1
  | dict d => rw [hm] at h; exact Bool.noConfusion h.1

theorem moneyCheck_ok (t : List (String × PyVal)) (h : gameSafeRec t = true) :
    ∃ b, moneyCheck t = .ok b := by
  unfold gameSafeRec at h
  rw [Bool.and_eq_true] at h
  have h2 := h.2
  unfold moneyCheck
  by_cases hcat : pyEqStr (pyGet t "category") "Income" = true
  · rw [if_pos hcat]
    exact ⟨true, rfl⟩
  · rw [if_neg hcat]
    by_cases hty : pyEqStr (pyGet t "type") "Credit" = true
    · rw [if_pos hty]
      exact ⟨true, rfl⟩
    · rw [if_neg hty]
      have hnum : isNumericB (pyGetD t "amount" (PyVal.int 0)) = true := by
        simp only [Bool.or_eq_true] at h2
        rcases h2 with (h' | h') | h'
        · exact absurd h' hcat
        · exact absurd h' hty
        · exact h'
      exact pyGtZero_ok _ hnum

/-- C9 (counterexample): "no failure mode whatever the field values" fails:
on the single mapping `{"amount": None}` neither string test short-circuits
and `None > 0` raises `TypeError`, which escapes `apply_game_logic`. -/
theorem C9_counterexample :
    apply_game_logic [[("amount", PyVal.none)]] [] = .error "TypeError" := rfl

/-- C9 (amended): `apply_game_logic` is a pure, deterministic function that
returns the game-state object without raising for every list of transaction
mappings in which each record's resolved merchant-or-label value is a string
(present string or defaulted), and the money test is decided by the
category/type short-circuit or the amount value is absent or numeric.  A
null or string amount reached by the comparison raises `TypeError` (see the
counterexample); a truthy non-string merchant/label raises `AttributeError`. -/
theorem C9_game_logic_total (transactions : List (List (String × PyVal)))
    (ai_content : List (String × PyVal))
    (h : ∀ t ∈ transactions, gameSafeRec t = true) :
    ∃ g, apply_game_logic transactions ai_content = .ok g := by
  obtain ⟨b1, h1⟩ := exceptAny_ok coffeeCheck transactions
    (fun t ht => coffeeCheck_ok t (h t ht))
  obtain ⟨b2, h2⟩ := exceptAny_ok moneyCheck transactions
    (fun t ht => moneyCheck_ok t (h t ht))
  cases hv : apply_game_logic transactions ai_content with
  | ok g => exact ⟨g, rfl⟩
  | error e =>
    exfalso
    simp only [apply_game_logic, h1, h2] at hv
    exact Except.noConfusion hv

theorem C9_witness :
    ∃ g, apply_game_logic
        [[("merchant", PyVal.str "Blue Bottle Coffee"), ("amount", PyVal.int (-6))]] [] = .ok g :=
  C9_game_logic_total _ _ (by decide)

theorem mapExcept_length {α β : Type} (f : α → Except String β) :
    ∀ (l : List α) (r : List β), mapExcept f l = .ok r → r.length = l.length := by
  intro l
  induction l with
  | nil => intro r h; cases h; rfl
  | cons a l ih =>
    intro r h
    unfold mapExcept at h
    cases hf : f a with
    | error e => rw [hf] at h; exact Except.noConfusion h
    | ok b =>
      rw [hf] at h
      cases hm : mapExcept f l with
      | error e => rw [hm] at h; exact Except.noConfusion h
      | ok bs =>
        rw [hm] at h
        cases h
        simp [ih bs hm]

theorem fillDates_length (now : Int) (tx : List NormalizedTx) :
    (fillDates now tx).length = tx.length := by
  simp [fillDates]

theorem sortTx_perm (tx : List NormalizedTx) : List.Perm (sortTx tx) tx :=
  List.perm_insertionSort txGE tx

theorem sortTx_length (tx : List NormalizedTx) : (sortTx tx).length = tx.length :=
  (sortTx_perm tx).length_eq

theorem sortTx_sorted (tx : List NormalizedTx) : (sortTx tx).Pairwise txGE :=
  List.sorted_insertionSort txGE tx

/-- C8 (counterexample): "For every input list" fails: on the single
well-formed mapping `{"date": 1}` normalization raises and `_summarize`
aborts, so no count or recent list is produced at all. -/
theorem C8_counterexample :
    _summarize [PyVal.dict [("date", PyVal.int 1)]] 0 = .error "AttributeError" := rfl

/-- C8 (amended): whenever `_summarize` returns a summary, it has processed
exactly the mapping-shaped entries of the input: non-mapping entries are
silently skipped, zero-amount transactions are not filtered out, the
summary's count equals the number of mapping-shaped input entries, and all
of them appear in `recent`, untruncated. -/
theorem C8_summarize_counts (transactions : List PyVal) (now : Int) (S : Summary)
    (h : _summarize transactions now = .ok S) :
    S.count = (asDicts transactions).length ∧ S.recent.length = S.count := by
  cases hn : normalizeBatch transactions with
  | error e =>
    simp only [_summarize, hn] at h
    exact Except.noConfusion h
  | ok tx0 =>
    simp only [_summarize, hn, Except.ok.injEq] at h
    subst h
    have hlen : (sortTx (fillDates now tx0)).length = (asDicts transactions).length := by
      rw [sortTx_length, fillDates_length, mapExcept_length _normalize_tx _ _ hn]
    constructor
    · exact hlen
    · simp [hlen]

theorem C8_witness :
    Summary.count
        { recent := [{ date := some 0, type := "Debit", account := Option.none, label := "",
                       amount := 0 }],
          buckets := [("Other", 0, 1)], largest_debit := Option.none, last_income := Option.none,
          last_7d := ⟨0, 0, 0⟩, last_30d := ⟨0, 0, 0⟩, avg_daily_spend_30d := 0, count := 1 }
      = (asDicts [PyVal.dict [("amount", PyVal.int 0)]]).length
    ∧ (Summary.recent
        { recent := [{ date := some 0, type := "Debit", account := Option.none, label := "",
                       amount := 0 }],
          buckets := [("Other", 0, 1)], largest_debit := Option.none, last_income := Option.none,
          last_7d := ⟨0, 0, 0⟩, last_30d := ⟨0, 0, 0⟩, avg_daily_spend_30d := 0, count := 1 }).length
      = Summary.count
        { recent := [{ date := some 0, type := "Debit", account := Option.none, label := "",
                       amount := 0 }],
          buckets := [("Other", 0, 1)], largest_debit := Option.none, last_income := Option.none,
          last_7d := ⟨0, 0, 0⟩, last_30d := ⟨0, 0, 0⟩, avg_daily_spend_30d := 0, count := 1 } :=
  C8_summarize_counts [PyVal.dict [("amount", PyVal.int 0)]] 0 _ (by with_unfolding_all rfl)

theorem addToBucket_counts (bs : List (String × ℚ × Nat)) (k : String) (a : ℚ) :
    ((addToBucket bs k a).map (fun b => b.2.2)).sum = (bs.map (fun b => b.2.2)).sum + 1 := by
  induction bs with
  | nil => simp [addToBucket]
  | cons hd bs ih =>
    rcases hd with ⟨k', t, c⟩
    simp only [addToBucket]
    split_ifs with hk
    · simp only [List.map_cons, List.sum_cons]
      omega
    · simp only [List.map_cons, List.sum_cons, ih]
      omega

theorem addToBucket_totals (bs : List (String × ℚ × Nat)) (k : String) (a : ℚ) :
    ((addToBucket bs k a).map (fun b => b.2.1)).sum = (bs.map (fun b => b.2.1)).sum + a := by
  induction bs with
  | nil => simp [addToBucket]
  | cons hd bs ih =>
    rcases hd with ⟨k', t, c⟩
    simp only [addToBucket]
    split_ifs with hk
    · simp only [List.map_cons, List.sum_cons]
      ring
    · simp only [List.map_cons, List.sum_cons, ih]
      ring

theorem bucketFold_counts (tx : List NormalizedTx) :
    ∀ bs : List (String × ℚ × Nat),
      ((tx.foldl (fun bs t => addToBucket bs (_bucket_for t) t.amount) bs).map
          (fun b => b.2.2)).sum
        = (bs.map (fun b => b.2.2)).sum + tx.length := by
  induction tx with
  | nil => intro bs; simp
  | cons t tx ih =>
    intro bs
    simp only [List.foldl_cons, List.length_cons]
    rw [ih, addToBucket_counts]
    omega

theorem bucketFold_totals (tx : List NormalizedTx) :
    ∀ bs : List (String × ℚ × Nat),
      ((tx.foldl (fun bs t => addToBucket bs (_bucket_for t) t.amount) bs).map
          (fun b => b.2.1)).sum
        = (bs.map (fun b => b.2.1)).sum + (tx.map (fun t => t.amount)).sum := by
  induction tx with
  | nil => intro bs; simp
  | cons t tx ih =>
    intro bs
    simp only [List.foldl_cons, List.map_cons, List.sum_cons]
    rw [ih, addToBucket_totals]
    ring

theorem rawBuckets_counts (tx : List NormalizedTx) :
    ((rawBuckets tx).map (fun b => b.2.2)).sum = tx.length := by
  have := bucketFold_counts tx []
  simpa [rawBuckets] using this

theorem rawBuckets_totals (tx : List NormalizedTx) :
    ((rawBuckets tx).map (fun b => b.2.1)).sum = (tx.map (fun t => t.amount)).sum := by
  have := bucketFold_totals tx []
  simpa [rawBuckets] using this

/-- C10: every normalized transaction lands in exactly one bucket: the
per-bucket counts of the output bucket map sum to the summary's count, and
the pre-rounding per-bucket totals sum to the sum of all normalized amounts
(the output totals differ only by the per-bucket 2-decimal rounding). -/
theorem C10_bucket_partition (transactions : List PyVal) (now : Int)
    (tx0 : List NormalizedTx) (S : Summary)
    (hn : normalizeBatch transactions = .ok tx0)
    (h : _summarize transactions now = .ok S) :
    (S.buckets.map (fun b => b.2.2)).sum = S.count
    ∧ ((rawBuckets (sortTx (fillDates now tx0))).map (fun b => b.2.1)).sum
        = ((sortTx (fillDates now tx0)).map (fun t => t.amount)).sum := by
  simp only [_summarize, hn, Except.ok.injEq] at h
  subst h
  refine ⟨?_, rawBuckets_totals _⟩
  dsimp only
  rw [List.map_map]
  have hcomp :
      ((fun b : String × ℚ × Nat => b.2.2) ∘
        (fun b : String × ℚ × Nat => (b.1, round2 b.2.1, b.2.2))) = fun b => b.2.2 := rfl
  rw [hcomp]
  have hperm :
      List.Perm ((sortBuckets (rawBuckets (sortTx (fillDates now tx0)))).map (fun b => b.2.2))
        ((rawBuckets (sortTx (fillDates now tx0))).map (fun b => b.2.2)) :=
    (List.perm_insertionSort bucketLe _).map _
  rw [hperm.sum_eq, rawBuckets_counts]

theorem C10_witness :
    ((Summary.buckets
        { recent := [{ date := some 0, type := "Credit", account := Option.none, label := "",
                       amount := 3 },
                     { date := some (-60000000), type := "Debit", account := Option.none,
                       label := "tesco", amount := -2 }],
          buckets := [("Groceries", -2, 1), ("Income", 3, 1)],
          largest_debit := some { date := some (-60000000), type := "Debit",
                                  account := Option.none, label := "tesco", amount := -2 },
          last_income := some { date := some 0, type := "Credit", account := Option.none,
                                label := "", amount := 3 },
          last_7d := ⟨-2, 3, 1⟩, last_30d := ⟨-2, 3, 1⟩, avg_daily_spend_30d := 7/100,
          count := 2 }).map (fun b => b.2.2)).sum
      = Summary.count
        { recent := [{ date := some 0, type := "Credit", account := Option.none, label := "",
                       amount := 3 },
                     { date := some (-60000000), type := "Debit", account := Option.none,
                       label := "tesco", amount := -2 }],
          buckets := [("Groceries", -2, 1), ("Income", 3, 1)],
          largest_debit := some { date := some (-60000000), type := "Debit",
                                  account := Option.none, label := "tesco", amount := -2 },
          last_income := some { date := some 0, type := "Credit", account := Option.none,
                                label := "", amount := 3 },
          last_7d := ⟨-2, 3, 1⟩, last_30d := ⟨-2, 3, 1⟩, avg_daily_spend_30d := 7/100,
          count := 2 }
    ∧ ((rawBuckets (sortTx (fillDates 0
          [{ date := Option.none, type := "Credit", account := Option.none, label := "",
             amount := 3, raw := [("amount", PyVal.int 3)] },
           { date := Option.none, type := "Debit", account := Option.none, label := "tesco",
             amount := -2,
             raw := [("label", PyVal.str "tesco"), ("amount", PyVal.int (-2))] }]))).map
          (fun b => b.2.1)).sum
      = ((sortTx (fillDates 0
          [{ date := Option.none, type := "Credit", account := Option.none, label := "",
             amount := 3, raw := [("amount", PyVal.int 3)] },
           { date := Option.none, type := "Debit", account := Option.none, label := "tesco",
             amount := -2,
             raw := [("label", PyVal.str "tesco"), ("amount", PyVal.int (-2))] }])).map
          (fun t => t.amount)).sum :=
  C10_bucket_partition
    [PyVal.dict [("amount", PyVal.int 3)],
     PyVal.dict [("label", PyVal.str "tesco"), ("amount", PyVal.int (-2))]]
    0
    [{ date := Option.none, type := "Credit", account := Option.none, label := "",
       amount := 3, raw := [("amount", PyVal.int 3)] },
     { date := Option.none, type := "Debit", account := Option.none, label := "tesco",
       amount := -2, raw := [("label", PyVal.str "tesco"), ("amount", PyVal.int (-2))] }]
    { recent := [{ date := some 0, type := "Credit", account := Option.none, label := "",
                   amount := 3 },
                 { date := some (-60000000), type := "Debit", account := Option.none,
                   label := "tesco", amount := -2 }],
      buckets := [("Groceries", -2, 1), ("Income", 3, 1)],
      largest_debit := some { date := some (-60000000), type := "Debit",
                              account := Option.none, label := "tesco", amount := -2 },
      last_income := some { date := some 0, type := "Credit", account := Option.none,
                            label := "", amount := 3 },
      last_7d := ⟨-2, 3, 1⟩, last_30d := ⟨-2, 3, 1⟩, avg_daily_spend_30d := 7/100,
      count := 2 }
    (by with_unfolding_all rfl) (by with_unfolding_all rfl)

theorem filter_head?_eq_find? {α : Type} (p : α → Bool) (l : List α) :
    (l.filter p).head? = l.find? p := by
  induction l with
  | nil => rfl
  | cons a l ih =>
    cases hp : p a <;> simp [List.filter_cons, List.find?, hp, ih]

/-- C6 (counterexample): a Credit-typed record with amount 0 does NOT count:
on `[{"type": "credit", "amount": 0}]` the summary holds exactly one record
and its type is Credit, yet `last_income` is absent, because the code draws
`last_income` from the records with strictly positive amount, not from the
Credit-typed ones. -/
theorem C6_counterexample :
    (_summarize [PyVal.dict [("type", PyVal.str "credit"), ("amount", PyVal.int 0)]] 0).map
      (fun s => (s.last_income, s.recent.map (fun j => j.type), s.count))
    = .ok (Option.none, ["Credit"], 1) := by with_unfolding_all rfl

/-- C6 (amended): `last_income` is the first record with strictly positive
amount in the date-descending sorted normalized sequence (serialized), and
is absent exactly when no record has a strictly positive amount.  Under the
sign invariant these are Credit records, but a zero-amount Credit record
does not count. -/
theorem C6_last_income (transactions : List PyVal) (now : Int)
    (tx0 : List NormalizedTx) (S : Summary)
    (hn : normalizeBatch transactions = .ok tx0)
    (h : _summarize transactions now = .ok S) :
    S.last_income
        = ((sortTx (fillDates now tx0)).find? (fun t => decide (0 < t.amount))).map _tx_to_json
    ∧ (S.last_income = Option.none ↔ ∀ t ∈ sortTx (fillDates now tx0), t.amount ≤ 0) := by
  simp only [_summarize, hn, Except.ok.injEq] at h
  subst h
  dsimp only
  constructor
  · rw [filter_head?_eq_find?]
  · rw [filter_head?_eq_find?]
    simp [Option.map_eq_none', List.find?_eq_none, decide_eq_true_eq, not_lt]

theorem C6_witness :
    Summary.last_income
        { recent := [{ date := some 0, type := "Credit", account := Option.none, label := "",
                       amount := 3 }],
          buckets := [("Income", 3, 1)], largest_debit := Option.none,
          last_income := some { date := some 0, type := "Credit", account := Option.none,
                                label := "", amount := 3 },
          last_7d := ⟨0, 3, 3⟩, last_30d := ⟨0, 3, 3⟩, avg_daily_spend_30d := 0, count := 1 }
        = ((sortTx (fillDates 0
            [{ date := Option.none, type := "Credit", account := Option.none, label := "",
               amount := 3, raw := [("amount", PyVal.int 3)] }])).find?
            (fun t => decide (0 < t.amount))).map _tx_to_json
    ∧ (Summary.last_income
        { recent := [{ date := some 0, type := "Credit", account := Option.none, label := "",
                       amount := 3 }],
          buckets := [("Income", 3, 1)], largest_debit := Option.none,
          last_income := some { date := some 0, type := "Credit", account := Option.none,
                                label := "", amount := 3 },
          last_7d := ⟨0, 3, 3⟩, last_30d := ⟨0, 3, 3⟩, avg_daily_spend_30d := 0, count := 1 }
          = Option.none
        ↔ ∀ t ∈ sortTx (fillDates 0
            [{ date := Option.none, type := "Credit", account := Option.none, label := "",
               amount := 3, raw := [("amount", PyVal.int 3)] }]), t.amount ≤ 0) :=
  C6_last_income [PyVal.dict [("amount", PyVal.int 3)]] 0
    [{ date := Option.none, type := "Credit", account := Option.none, label := "",
       amount := 3, raw := [("amount", PyVal.int 3)] }]
    { recent := [{ date := some 0, type := "Credit", account := Option.none, label := "",
                   amount := 3 }],
      buckets := [("Income", 3, 1)], largest_debit := Option.none,
      last_income := some { date := some 0, type := "Credit", account := Option.none,
                            label := "", amount := 3 },
      last_7d := ⟨0, 3, 3⟩, last_30d := ⟨0, 3, 3⟩, avg_daily_spend_30d := 0, count := 1 }
    (by with_unfolding_all rfl) (by with_unfolding_all rfl)

/-- C7: the summary's `recent` list is sorted by resolved date descending;
every normalized record whose date could not be parsed receives the
placeholder `now - i` minutes, `i` its 0-based position in the filtered
(mapping-only) sequence; every undated record appears in the sorted output;
and any two undated records appear there in their original relative input
order (their placeholders strictly decrease with position). -/
theorem C7_ordering (transactions : List PyVal) (now : Int)
    (tx0 : List NormalizedTx) (S : Summary)
    (hn : normalizeBatch transactions = .ok tx0)
    (h : _summarize transactions now = .ok S) :
    (∀ (i : Nat) (t : NormalizedTx), tx0[i]? = some t → t.date = Option.none →
        (fillDates now tx0)[i]? = some { t with date := some (now - (i : Int) * MICROS_PER_MIN) })
    ∧ S.recent.Pairwise (fun a b => b.date.getD 0 ≤ a.date.getD 0)
    ∧ (∀ (i : Nat) (t : NormalizedTx), tx0[i]? = some t → t.date = Option.none →
        ∃ p : Nat, (sortTx (fillDates now tx0))[p]?
            = some { t with date := some (now - (i : Int) * MICROS_PER_MIN) })
    ∧ (∀ (i j : Nat) (ti tj : NormalizedTx), i < j →
        tx0[i]? = some ti → tx0[j]? = some tj →
        ti.date = Option.none → tj.date = Option.none →
        ∀ (p q : Nat),
          (sortTx (fillDates now tx0))[p]?
              = some { ti with date := some (now - (i : Int) * MICROS_PER_MIN) } →
          (sortTx (fillDates now tx0))[q]?
              = some { tj with date := some (now - (j : Int) * MICROS_PER_MIN) } →
          p < q) := by
  simp only [_summarize, hn, Except.ok.injEq] at h
  subst h
  have hM : (0 : Int) < MICROS_PER_MIN := by norm_num [MICROS_PER_MIN]
  have part1 : ∀ (i : Nat) (t : NormalizedTx), tx0[i]? = some t → t.date = Option.none →
      (fillDates now tx0)[i]? = some { t with date := some (now - (i : Int) * MICROS_PER_MIN) } := by
    intro i t hti htd
    simp [fillDates, List.getElem?_map, List.getElem?_enum, hti, htd]
  have part3 : ∀ (i : Nat) (t : NormalizedTx), tx0[i]? = some t → t.date = Option.none →
      ∃ p : Nat, (sortTx (fillDates now tx0))[p]?
          = some { t with date := some (now - (i : Int) * MICROS_PER_MIN) } := by
    intro i t hti htd
    have hmem : ({ t with date := some (now - (i : Int) * MICROS_PER_MIN) } : NormalizedTx)
        ∈ fillDates now tx0 :=
      List.mem_iff_getElem?.mpr ⟨i, part1 i t hti htd⟩
    exact List.mem_iff_getElem?.mp (((sortTx_perm (fillDates now tx0)).mem_iff).mpr hmem)
  refine ⟨part1, ?_, part3, ?_⟩
  · dsimp only
    exact List.Pairwise.map _ (fun a b hab => hab) (sortTx_sorted (fillDates now tx0))
  · intro i j ti tj hij hti htj hdi hdj p q hp hq
    obtain ⟨hplen, hpe⟩ := List.getElem?_eq_some.mp hp
    obtain ⟨hqlen, hqe⟩ := List.getElem?_eq_some.mp hq
    have h1 : (i : Int) < (j : Int) := by exact_mod_cast hij
    have h2 : (i : Int) * MICROS_PER_MIN < (j : Int) * MICROS_PER_MIN :=
      mul_lt_mul_of_pos_right h1 hM
    by_contra hpq
    rcases Nat.lt_or_ge q p with hqp | hqp2
    · have hsorted :=
        List.pairwise_iff_getElem.mp (sortTx_sorted (fillDates now tx0)) q p hqlen hplen hqp
      rw [hpe, hqe] at hsorted
      unfold txGE dateKey at hsorted
      simp only [Option.getD_some] at hsorted
      linarith
    · have hpq2 : p = q := le_antisymm hqp2 (not_lt.mp hpq)
      subst hpq2
      have hXY := hpe.symm.trans hqe
      have hd := congrArg NormalizedTx.date hXY
      simp only [Option.some.injEq] at hd
      linarith

theorem C7_witness :
    (∀ (i : Nat) (t : NormalizedTx),
        [{ date := Option.none, type := "Debit", account := Option.none, label := "a",
           amount := 0, raw := [("label", PyVal.str "a")] },
         { date := Option.none, type := "Debit", account := Option.none, label := "b",
           amount := 0, raw := [("label", PyVal.str "b")] }][i]? = some t →
        t.date = Option.none →
        (fillDates 0
          [{ date := Option.none, type := "Debit", account := Option.none, label := "a",
             amount := 0, raw := [("label", PyVal.str "a")] },
           { date := Option.none, type := "Debit", account := Option.none, label := "b",
             amount := 0, raw := [("label", PyVal.str "b")] }])[i]?
          = some { t with date := some (0 - (i : Int) * MICROS_PER_MIN) })
    ∧ (Summary.recent
        { recent := [{ date := some 0, type := "Debit", account := Option.none, label := "a",
                       amount := 0 },
                     { date := some (-60000000), type := "Debit", account := Option.none,
                       label := "b", amount := 0 }],
          buckets := [("Other", 0, 2)], largest_debit := Option.none,
          last_income := Option.none, last_7d := ⟨0, 0, 0⟩, last_30d := ⟨0, 0, 0⟩,
          avg_daily_spend_30d := 0, count := 2 }).Pairwise
        (fun a b => b.date.getD 0 ≤ a.date.getD 0)
    ∧ (∀ (i : Nat) (t : NormalizedTx),
        [{ date := Option.none, type := "Debit", account := Option.none, label := "a",
           amount := 0, raw := [("label", PyVal.str "a")] },
         { date := Option.none, type := "Debit", account := Option.none, label := "b",
           amount := 0, raw := [("label", PyVal.str "b")] }][i]? = some t →
        t.date = Option.none →
        ∃ p : Nat, (sortTx (fillDates 0
          [{ date := Option.none, type := "Debit", account := Option.none, label := "a",
             amount := 0, raw := [("label", PyVal.str "a")] },
           { date := Option.none, type := "Debit", account := Option.none, label := "b",
             amount := 0, raw := [("label", PyVal.str "b")] }]))[p]?
          = some { t with date := some (0 - (i : Int) * MICROS_PER_MIN) })
    ∧ (∀ (i j : Nat) (ti tj : NormalizedTx), i < j →
        [{ date := Option.none, type := "Debit", account := Option.none, label := "a",
           amount := 0, raw := [("label", PyVal.str "a")] },
         { date := Option.none, type := "Debit", account := Option.none, label := "b",
           amount := 0, raw := [("label", PyVal.str "b")] }][i]? = some ti →
        [{ date := Option.none, type := "Debit", account := Option.none, label := "a",
           amount := 0, raw := [("label", PyVal.str "a")] },
         { date := Option.none, type := "Debit", account := Option.none, label := "b",
           amount := 0, raw := [("label", PyVal.str "b")] }][j]? = some tj →
        ti.date = Option.none → tj.date = Option.none →
        ∀ (p q : Nat),
          (sortTx (fillDates 0
            [{ date := Option.none, type := "Debit", account := Option.none, label := "a",
               amount := 0, raw := [("label", PyVal.str "a")] },
             { date := Option.none, type := "Debit", account := Option.none, label := "b",
               amount := 0, raw := [("label", PyVal.str "b")] }]))[p]?
              = some { ti with date := some (0 - (i : Int) * MICROS_PER_MIN) } →
          (sortTx (fillDates 0
            [{ date := Option.none, type := "Debit", account := Option.none, label := "a",
               amount := 0, raw := [("label", PyVal.str "a")] },
             { date := Option.none, type := "Debit", account := Option.none, label := "b",
               amount := 0, raw := [("label", PyVal.str "b")] }]))[q]?
              = some { tj with date := some (0 - (j : Int) * MICROS_PER_MIN) } →
          p < q) :=
  C7_ordering [PyVal.dict [("label", PyVal.str "a")], PyVal.dict [("label", PyVal.str "b")]] 0
    [{ date := Option.none, type := "Debit", account := Option.none, label := "a",
       amount := 0, raw := [("label", PyVal.str "a")] },
     { date := Option.none, type := "Debit", account := Option.none, label := "b",
       amount := 0, raw := [("label", PyVal.str "b")] }]
    { recent := [{ date := some 0, type := "Debit", account := Option.none, label := "a",
                   amount := 0 },
                 { date := some (-60000000), type := "Debit", account := Option.none,
                   label := "b", amount := 0 }],
      buckets := [("Other", 0, 2)], largest_debit := Option.none,
      last_income := Option.none, last_7d := ⟨0, 0, 0⟩, last_30d := ⟨0, 0, 0⟩,
      avg_daily_spend_30d := 0, count := 2 }
    (by with_unfolding_all rfl) (by with_unfolding_all rfl)
